import Mathlib

/-!
# Quadify OLED screens: verification of the display/state-sync engine

Shallow embedding of the state-synchronisation and rendering logic of the
Quadify plugin screens (`vu_screen.py`, `digitalvu_screen.py`,
`original_screen.py`), together with proofs of the specified properties.

Strings from the Python side are modelled as `List Char`; Python's dynamic
values (as they appear in the state dictionaries) are modelled by `PyVal`;
wall-clock times (`time.time()`) are modelled as rationals.
-/

/-- Python-style strip: remove leading and trailing whitespace (`str.strip()`). -/
def pyStrip (cs : List Char) : List Char :=
  ((cs.dropWhile Char.isWhitespace).reverse.dropWhile Char.isWhitespace).reverse

/-- Split a character list on `';'` (`str.split(";")`): always returns at least
one (possibly empty) token. -/
def splitOnSemi : List Char → List (List Char)
  | [] => [[]]
  | c :: rest =>
    match splitOnSemi rest with
    | [] => [[c]]
    | t :: ts => if c = ';' then [] :: t :: ts else (c :: t) :: ts

/-- Python `str.isdigit()`: nonempty and every character a digit. -/
def isdigitTok (t : List Char) : Bool := t ≠ [] && t.all Char.isDigit

/-- Value of a digit string (what Python `int(x)` returns on an `isdigit` string). -/
def digitsToNat (t : List Char) : ℕ :=
  t.foldl (fun a c => a * 10 + (c.toNat - 48)) 0

/-- Python `int(s)` on a string: optional sign, digits, surrounding whitespace
allowed; `none` models a raised `ValueError`. -/
def pyStrToInt? (t : List Char) : Option ℤ :=
  match pyStrip t with
  | '-' :: rest => if isdigitTok rest then some (-(digitsToNat rest : ℤ)) else none
  | '+' :: rest => if isdigitTok rest then some ((digitsToNat rest : ℤ)) else none
  | t' => if isdigitTok t' then some ((digitsToNat t' : ℤ)) else none

/-- A Python value as stored in the player-state dictionaries: `None`, an
integer, or a string. -/
inductive PyVal where
  | none
  | int (n : ℤ)
  | str (s : List Char)
deriving DecidableEq

/-- Python truthiness of a `PyVal`. -/
def PyVal.truthy : PyVal → Bool
  | .none => false
  | .int n => n ≠ 0
  | .str s => s ≠ []

/-- Python `int(v)`: succeeds on integers and numeric strings, raises
(`none`) on `None` and non-numeric strings. -/
def PyVal.toInt? : PyVal → Option ℤ
  | .none => Option.none
  | .int n => some n
  | .str s => pyStrToInt? s

/-- Python `v or 0` as used in `int(state.get("seek") or 0)`. -/
def pyOr0 (v : PyVal) : PyVal := if v.truthy then v else .int 0

/-- Python `int()` applied to a float: truncation toward zero. -/
def pyTrunc (q : ℚ) : ℤ := if 0 ≤ q then ⌊q⌋ else -⌊-q⌋

/-- Python ASCII `str.lower()` on one character. -/
def lowerChar (c : Char) : Char :=
  if 'A' ≤ c ∧ c ≤ 'Z' then Char.ofNat (c.toNat + 32) else c

/-- Python `str.lower()` (ASCII fragment, which covers the status strings). -/
def pyLower (s : List Char) : List Char := s.map lowerChar

/-- The status string the screens compare against (`status == "play"`). -/
def playStr : List Char := "play".data

/-- A paused status string, used in concrete instances. -/
def pauseStr : List Char := "pause".data

/-- The non-numeric token used in concrete instances. -/
def abcStr : List Char := "abc".data

/-- A fully numeric FIFO line used in concrete instances. -/
def lineNums : List Char := "10;20".data

/-- A FIFO line with no numeric token, used in concrete instances. -/
def lineAB : List Char := "a;b".data

/-- A FIFO line mixing numeric and non-numeric tokens. -/
def lineMixed : List Char := "10;abc;20".data

/-- A player-state dictionary restricted to the keys the engine reads.
`Option.none` on a field models an absent key; `some PyVal.none` a key
whose value is Python `None`. -/
structure PState where
  status : Option (List Char)
  seek : Option PyVal
  duration : Option PyVal
  volume : Option PyVal
deriving DecidableEq

/-- Per-screen render state (`latest_state`, `current_state`,
`last_update_time`, `update_event`) as mutated by the redraw loop. -/
structure VURender where
  latest : Option PState
  current : Option PState
  lastUpdate : ℚ
  eventSet : Bool
deriving DecidableEq

/-- The `on_volumio_state_change` body once the active/mode guards pass:
store the state as `latest_state` and set the update event. -/
def vuPush (r : VURender) (st : PState) : VURender :=
  { r with latest := some st, eventSet := true }

/-- The `duration_ok` test of `VUScreen.update_display_loop`:
`int(duration_val) > 0`, any exception meaning `False`. -/
def durationOk (d : Option PyVal) : Bool :=
  match PyVal.toInt? (d.getD PyVal.none) with
  | some n => decide (0 < n)
  | Option.none => false

/-- Status string as the loop computes it: `(state.get("status") or "").lower()`. -/
def statusLower (st : PState) : List Char := pyLower (st.status.getD [])

/-- One iteration of `VUScreen.update_display_loop`'s drain step at wall-clock
time `now` (the body under `self.state_lock`).  `triggered` is the result of
`update_event.wait`, which we identify with the event flag.  The result is
`none` when the Python code would raise (non-numeric `seek` in the
interpolation branch). -/
def vuDrain (r : VURender) (now : ℚ) : Option VURender :=
  if r.eventSet && r.latest.isSome then
    some { latest := Option.none, current := r.latest, lastUpdate := now, eventSet := false }
  else
    match r.current with
    | some cs =>
      if statusLower cs = playStr && durationOk cs.duration then
        match PyVal.toInt? (pyOr0 (cs.seek.getD PyVal.none)) with
        | some sv =>
          some { r with
                 current := some { cs with
                   seek := some (.int (sv + pyTrunc ((now - r.lastUpdate) * 1000))) },
                 lastUpdate := now }
        | Option.none => Option.none
      else
        some { r with lastUpdate := now }
    | Option.none => some r

/-- Iterated drain cycles of `VUScreen.update_display_loop` at the given
sequence of wake times, with no intervening push. -/
def vuDrainSeq (r : VURender) : List ℚ → Option VURender
  | [] => some r
  | t :: ts =>
    match vuDrain r t with
    | some r' => vuDrainSeq r' ts
    | Option.none => Option.none

/-- C1: in a drain cycle of `VUScreen.update_display_loop` where a push is
pending (`latest_state` non-`None` and the wake event signalled), the drain
installs exactly the pushed state as `current_state`, clears `latest_state`
and the event, resets `last_update_time` to now, and applies no seek
interpolation in that cycle: the rendered seek is the pushed one. -/
theorem vu_drain_push_wins (r : VURender) (ps : PState) (now : ℚ)
    (hl : r.latest = some ps) (he : r.eventSet = true) :
    vuDrain r now =
      some { latest := Option.none, current := some ps, lastUpdate := now, eventSet := false } ∧
    (vuDrain r now).map (fun r' => r'.current.map PState.seek) = some (some ps.seek) := by
  have : vuDrain r now =
      some { latest := Option.none, current := some ps, lastUpdate := now, eventSet := false } := by
    unfold vuDrain
    rw [hl, he]
    simp
  exact ⟨this, by rw [this]; rfl⟩

/-- Witness for `vu_drain_push_wins` at a concrete pushed state. -/
theorem vu_drain_push_wins_w :
    vuDrain { latest := some { status := some playStr, seek := some (.int 7),
                               duration := some (.int 100), volume := Option.none },
              current := some { status := some playStr, seek := some (.int 0),
                                duration := some (.int 100), volume := Option.none },
              lastUpdate := 5, eventSet := true } 9 =
      some { latest := Option.none,
             current := some { status := some playStr, seek := some (.int 7),
                               duration := some (.int 100), volume := Option.none },
             lastUpdate := 9, eventSet := false } :=
  (vu_drain_push_wins _ _ 9 rfl rfl).1

/-- Python `int(x or 0)` on an integer value is the integer itself. -/
theorem toInt_pyOr0_int (sv : ℤ) : PyVal.toInt? (pyOr0 (.int sv)) = some sv := by
  by_cases h : sv = 0 <;> simp [pyOr0, PyVal.truthy, PyVal.toInt?, h]

/-- Python `int()` of a nonnegative float is nonnegative. -/
theorem pyTrunc_nonneg (q : ℚ) (h : 0 ≤ q) : 0 ≤ pyTrunc q := by
  unfold pyTrunc
  rw [if_pos h]
  exact Int.floor_nonneg.mpr h

/-- Single no-push interpolation step of `VUScreen.update_display_loop`:
with `latest_state` empty, a playing current state with known positive
duration and integer seek advances the seek by `int(elapsed * 1000)`. -/
theorem vuDrain_interp (r : VURender) (cs : PState) (sv : ℤ) (now : ℚ)
    (hl : r.latest = Option.none) (hc : r.current = some cs)
    (hs : statusLower cs = playStr) (hd : durationOk cs.duration = true)
    (hseek : cs.seek = some (.int sv)) :
    vuDrain r now =
      some { r with
             current := some { cs with
               seek := some (.int (sv + pyTrunc ((now - r.lastUpdate) * 1000))) },
             lastUpdate := now } := by
  unfold vuDrain
  rw [hl, hc]
  simp [hs, hd, hseek, toInt_pyOr0_int]

/-- Iterating no-push drains preserves the playing invariant and never
decreases the seek. -/
theorem vuDrainSeq_mono (ts : List ℚ) : ∀ (r : VURender) (cs : PState) (sv : ℤ),
    r.latest = Option.none → r.current = some cs →
    statusLower cs = playStr → durationOk cs.duration = true →
    cs.seek = some (.int sv) → List.Chain (· ≤ ·) r.lastUpdate ts →
    ∃ r' sv', vuDrainSeq r ts = some r' ∧
      r'.current = some { cs with seek := some (.int sv') } ∧ sv ≤ sv' := by
  induction ts with
  | nil =>
    intro r cs sv hl hc hs hd hseek _
    refine ⟨r, sv, rfl, ?_, le_refl sv⟩
    rw [hc]
    cases cs
    simp_all
  | cons t ts ih =>
    intro r cs sv hl hc hs hd hseek hch
    obtain ⟨hle, hch'⟩ := List.chain_cons.mp hch
    have hstep := vuDrain_interp r cs sv t hl hc hs hd hseek
    have hnn : (0:ℤ) ≤ pyTrunc ((t - r.lastUpdate) * 1000) := by
      apply pyTrunc_nonneg
      have : (0:ℚ) ≤ t - r.lastUpdate := by linarith
      positivity
    obtain ⟨r', sv', heq, hcur, hlesv⟩ :=
      ih { r with
           current := some { cs with
             seek := some (.int (sv + pyTrunc ((t - r.lastUpdate) * 1000))) },
           lastUpdate := t }
        { cs with seek := some (.int (sv + pyTrunc ((t - r.lastUpdate) * 1000))) }
        (sv + pyTrunc ((t - r.lastUpdate) * 1000))
        hl rfl hs hd rfl hch'
    refine ⟨r', sv', ?_, hcur, le_trans (by linarith) hlesv⟩
    unfold vuDrainSeq
    rw [hstep]
    exact heq

/-- C2: across drain cycles with no intervening push, while the current
state's status is the playing status (`"play"` after lowercasing) and its
duration is a known positive value, each cycle advances `seek` by
`int(elapsed * 1000)` milliseconds of the elapsed wall-clock time and resets
`last_update_time`; consequently, over any time-ordered sequence of such
cycles the seek is monotonically non-decreasing. -/
theorem vu_seek_interpolation (r : VURender) (cs : PState) (sv : ℤ) (now : ℚ)
    (ts : List ℚ)
    (hl : r.latest = Option.none) (hc : r.current = some cs)
    (hs : statusLower cs = playStr) (hd : durationOk cs.duration = true)
    (hseek : cs.seek = some (.int sv)) :
    (vuDrain r now =
      some { r with
             current := some { cs with
               seek := some (.int (sv + pyTrunc ((now - r.lastUpdate) * 1000))) },
             lastUpdate := now }) ∧
    (r.lastUpdate ≤ now → sv ≤ sv + pyTrunc ((now - r.lastUpdate) * 1000)) ∧
    (List.Chain (· ≤ ·) r.lastUpdate ts →
      ∃ r' sv', vuDrainSeq r ts = some r' ∧
        r'.current = some { cs with seek := some (.int sv') } ∧ sv ≤ sv') := by
  refine ⟨vuDrain_interp r cs sv now hl hc hs hd hseek, ?_, ?_⟩
  · intro h
    have : (0:ℤ) ≤ pyTrunc ((now - r.lastUpdate) * 1000) := by
      apply pyTrunc_nonneg
      have : (0:ℚ) ≤ now - r.lastUpdate := by linarith
      positivity
    linarith
  · exact vuDrainSeq_mono ts r cs sv hl hc hs hd hseek

/-- Witness for `vu_seek_interpolation`: one second elapses, seek advances
from 1000 ms to 2000 ms. -/
theorem vu_seek_interpolation_w :
    vuDrain { latest := Option.none,
              current := some { status := some playStr, seek := some (.int 1000),
                                duration := some (.int 300), volume := Option.none },
              lastUpdate := 0, eventSet := false } 1 =
      some { latest := Option.none,
             current := some { status := some playStr,
                               seek := some (.int (1000 + pyTrunc ((1 - 0) * 1000))),
                               duration := some (.int 300), volume := Option.none },
             lastUpdate := 1, eventSet := false } :=
  (vu_seek_interpolation _ _ 1000 1 [] rfl rfl (by decide) (by decide) rfl).1

/-- One iteration of the effective `DigitalVUScreen.update_display_loop`
drain step (the later definition in the class body, which overrides the
earlier one).  A pending push is consumed as in `VUScreen`; otherwise the
seek is advanced whenever both the `"seek"` and `"duration"` keys are
present, with no check of the status or of the duration value; when either
key is missing nothing changes (not even `last_update_time`).  `none` models
the `TypeError` Python raises when a present seek value is not an integer. -/
def dvuDrain (r : VURender) (now : ℚ) : Option VURender :=
  if r.eventSet && r.latest.isSome then
    some { latest := Option.none, current := r.latest, lastUpdate := now, eventSet := false }
  else
    match r.current with
    | some cs =>
      if cs.seek.isSome && cs.duration.isSome then
        match cs.seek with
        | some (.int sv) =>
          some { r with
                 current := some { cs with
                   seek := some (.int (sv + pyTrunc ((now - r.lastUpdate) * 1000))) },
                 lastUpdate := now }
        | _ => Option.none
      else
        some r
    | Option.none => some r

/-- C3 (amended): with no pending push, `VUScreen` leaves the seek unchanged
whenever the duration fails the `int(duration) > 0` test (0, missing,
non-numeric, or `None`): the drain only refreshes `last_update_time`.
`DigitalVUScreen` however freezes the seek only when the `"seek"` or the
`"duration"` key is missing from the current state (in which case the whole
render state is untouched); a present duration key suspends nothing. -/
theorem duration_unknown_freezes_seek (r : VURender) (cs : PState) (now : ℚ)
    (hnp : (r.eventSet && r.latest.isSome) = false) (hc : r.current = some cs) :
    (durationOk cs.duration = false →
      vuDrain r now = some { r with lastUpdate := now }) ∧
    ((cs.seek.isSome && cs.duration.isSome) = false →
      dvuDrain r now = some r) := by
  constructor
  · intro hd
    unfold vuDrain
    rw [hnp, hc]
    simp [hd]
  · intro hk
    unfold dvuDrain
    rw [hnp, hc]
    simp [hk]

/-- Witness for `duration_unknown_freezes_seek`: a playing state whose
duration value is the non-numeric string `"abc"` (and, for the digital
variant, a state with no duration key). -/
theorem duration_unknown_freezes_seek_w :
    vuDrain { latest := Option.none,
              current := some { status := some playStr, seek := some (.int 5000),
                                duration := some (.str abcStr), volume := Option.none },
              lastUpdate := 0, eventSet := false } 1 =
      some { latest := Option.none,
             current := some { status := some playStr, seek := some (.int 5000),
                               duration := some (.str abcStr), volume := Option.none },
             lastUpdate := 1, eventSet := false } ∧
    dvuDrain { latest := Option.none,
               current := some { status := some playStr, seek := some (.int 5000),
                                 duration := Option.none, volume := Option.none },
               lastUpdate := 0, eventSet := false } 1 =
      some { latest := Option.none,
             current := some { status := some playStr, seek := some (.int 5000),
                               duration := Option.none, volume := Option.none },
             lastUpdate := 0, eventSet := false } :=
  ⟨(duration_unknown_freezes_seek
      { latest := Option.none,
        current := some { status := some playStr, seek := some (.int 5000),
                          duration := some (.str abcStr), volume := Option.none },
        lastUpdate := 0, eventSet := false }
      { status := some playStr, seek := some (.int 5000),
        duration := some (.str abcStr), volume := Option.none }
      1 rfl rfl).1 (by decide),
   (duration_unknown_freezes_seek
      { latest := Option.none,
        current := some { status := some playStr, seek := some (.int 5000),
                          duration := Option.none, volume := Option.none },
        lastUpdate := 0, eventSet := false }
      { status := some playStr, seek := some (.int 5000),
        duration := Option.none, volume := Option.none }
      1 rfl rfl).2 (by decide)⟩

/-- A current state whose duration is present but zero, for the C3
counterexample. -/
def c3State : VURender :=
  { latest := Option.none,
    current := some { status := some pauseStr, seek := some (.int 0),
                      duration := some (.int 0), volume := Option.none },
    lastUpdate := 0, eventSet := false }

/-- C3 counterexample: on `DigitalVUScreen`, a drain cycle with no pending
push and a current state whose duration is 0 does NOT leave the seek
unchanged — after a one-second cycle the seek has advanced from 0 to
1000 ms (the loop only tests key presence, not the duration value), so the
claimed freeze does not hold for every screen variant. -/
theorem c3_duration_zero_counterexample :
    dvuDrain c3State 1 =
      some { latest := Option.none,
             current := some { status := some pauseStr, seek := some (.int 1000),
                               duration := some (.int 0), volume := Option.none },
             lastUpdate := 1, eventSet := false } ∧
    ¬ (dvuDrain c3State 1).map (fun r' => r'.current.map PState.seek) =
        some (some (some (.int 0))) := by
  constructor
  · show dvuDrain c3State 1 = _
    unfold dvuDrain c3State
    norm_num [pyTrunc]
  · intro h
    rw [(by unfold dvuDrain c3State; norm_num [pyTrunc] :
          dvuDrain c3State 1 =
            some { latest := Option.none,
                   current := some { status := some pauseStr, seek := some (.int 1000),
                                     duration := some (.int 0), volume := Option.none },
                   lastUpdate := 1, eventSet := false })] at h
    simp at h

/-- The comprehension `bars = [int(x) for x in line.strip().split(";") if x.isdigit()]` from
`VUScreen._read_fifo` (the `DigitalVUScreen._read_fifo` body is identical
once the line has been stripped by its `readline().strip()`). -/
def parseBars (line : List Char) : List ℕ :=
  (splitOnSemi (pyStrip line)).filterMap
    (fun t => if isdigitTok t then some (digitsToNat t) else none)

/-- Effect of one FIFO line on the shared bar vector:
`if bars: self.spectrum_bars = bars`. -/
def vuReadLine (prev : List ℕ) (line : List Char) : List ℕ :=
  if parseBars line = [] then prev else parseBars line

/-- A `filterMap` of a guarded function is `filter` then `map`. -/
theorem filterMap_guard {α β : Type} (p : α → Bool) (f : α → β) (l : List α) :
    l.filterMap (fun a => if p a then some (f a) else none) =
      (l.filter p).map f := by
  induction l with
  | nil => rfl
  | cons a l ih => by_cases h : p a <;> simp [h, ih]

/-- Python `str.split` never yields an empty token list. -/
theorem splitOnSemi_ne_nil (cs : List Char) : splitOnSemi cs ≠ [] := by
  cases cs with
  | nil => simp [splitOnSemi]
  | cons c rest =>
    unfold splitOnSemi
    cases h : splitOnSemi rest with
    | nil => simp
    | cons t ts => by_cases hc : c = ';' <;> simp [hc]

/-- C4 (amended): the FIFO reader filters tokens individually rather than
dropping malformed lines: a line whose tokens are all numeric replaces the
bar vector wholesale with the parsed values; a line with no numeric token
leaves the previous vector unchanged; but a line with at least one numeric
token replaces the vector with exactly its numeric tokens in order, even
when other tokens are non-numeric (a partial replace, not a whole-line
drop). -/
theorem spectrum_line_numeric_filter (prev : List ℕ) (line : List Char) :
    ((splitOnSemi (pyStrip line)).all isdigitTok = true →
      vuReadLine prev line = (splitOnSemi (pyStrip line)).map digitsToNat) ∧
    ((splitOnSemi (pyStrip line)).filter isdigitTok = [] →
      vuReadLine prev line = prev) ∧
    ((splitOnSemi (pyStrip line)).filter isdigitTok ≠ [] →
      vuReadLine prev line =
        ((splitOnSemi (pyStrip line)).filter isdigitTok).map digitsToNat) := by
  have hpb : parseBars line =
      ((splitOnSemi (pyStrip line)).filter isdigitTok).map digitsToNat :=
    filterMap_guard _ _ _
  refine ⟨?_, ?_, ?_⟩
  · intro hall
    have hfilter : (splitOnSemi (pyStrip line)).filter isdigitTok =
        splitOnSemi (pyStrip line) := List.filter_eq_self.mpr (by
      intro a ha
      exact List.all_eq_true.mp hall a ha)
    have hne : (splitOnSemi (pyStrip line)).map digitsToNat ≠ [] := by
      simp [List.map_eq_nil_iff, splitOnSemi_ne_nil]
    unfold vuReadLine
    rw [hpb, hfilter, if_neg hne]
  · intro h0
    unfold vuReadLine
    rw [hpb, h0]
    simp
  · intro hne
    unfold vuReadLine
    rw [hpb]
    simp [hne]

/-- Witness for `spectrum_line_numeric_filter`: the all-numeric line
`"10;20"` replaces the vector, and the numeric-free line `"a;b"` leaves it
unchanged. -/
theorem spectrum_line_numeric_filter_w :
    vuReadLine [1, 2, 3] lineNums =
      (splitOnSemi (pyStrip lineNums)).map digitsToNat ∧
    vuReadLine [1, 2, 3] lineAB = [1, 2, 3] :=
  ⟨(spectrum_line_numeric_filter [1, 2, 3] lineNums).1 (by decide),
   (spectrum_line_numeric_filter [1, 2, 3] lineAB).2.1 (by decide)⟩

/-- C4 counterexample: the line `"10;abc;20"` contains the non-numeric token
`"abc"`, yet it is not dropped: the previous vector `[1,2,3]` is replaced by
the partial parse `[10,20]`, refuting "any non-numeric token leaves the
previous vector completely unchanged". -/
theorem c4_partial_line_counterexample :
    isdigitTok abcStr = false ∧
    abcStr ∈ splitOnSemi (pyStrip lineMixed) ∧
    vuReadLine [1, 2, 3] lineMixed = [10, 20] ∧
    ([10, 20] : List ℕ) ≠ [1, 2, 3] := by decide

/-- The peak hold timeout in seconds: `self.peak_hold_ms / 1000` with
`peak_hold_ms = 1500`. -/
def peakHold : ℚ := 1500 / 1000

/-- The cell count `int((level / 255.0) * num_cells)` with `num_cells = 64`
(`DigitalVUScreen.draw_display`): for levels in range this float computation
equals the rational floor `level * 64 / 255`. -/
def cellsOf (level : ℕ) : ℕ := level * 64 / 255

/-- One frame of the per-channel peak-hold update in
`DigitalVUScreen.draw_display` (the left and right channels run the same
code on their own `peak_cell`/`peak_time` pair). -/
def peakStep (peak : ℕ) (peakTime : ℚ) (cells : ℕ) (now : ℚ) : ℕ × ℚ :=
  if cells > peak ∨ now - peakTime > peakHold then (cells, now)
  else if cells < peak ∧ now - peakTime > peakHold then (cells, peakTime)
  else (peak, peakTime)

/-- C5: the displayed peak cell rises immediately to any higher cell count
(resetting the hold clock); while the 1.5 s hold timeout since the last peak
update has not elapsed the peak never decreases (it changes only by rising);
and once the timeout has elapsed the peak moves to the current cell count. -/
theorem dvu_peak_hold (peak cells : ℕ) (pt now : ℚ) :
    (cells > peak → peakStep peak pt cells now = (cells, now)) ∧
    (now - pt ≤ peakHold →
      peak ≤ (peakStep peak pt cells now).1 ∧
      ((peakStep peak pt cells now).1 ≠ peak → cells > peak)) ∧
    (now - pt > peakHold → peakStep peak pt cells now = (cells, now)) := by
  refine ⟨?_, ?_, ?_⟩
  · intro h
    unfold peakStep
    rw [if_pos (Or.inl h)]
  · intro hle
    have hnot : ¬ now - pt > peakHold := not_lt.mpr hle
    by_cases h : cells > peak
    · unfold peakStep
      rw [if_pos (Or.inl h)]
      exact ⟨le_of_lt h, fun _ => h⟩
    · have : peakStep peak pt cells now = (peak, pt) := by
        unfold peakStep
        rw [if_neg (by push_neg; exact ⟨not_lt.mp h, hle⟩)]
        rw [if_neg (by rintro ⟨-, hbad⟩; exact hnot hbad)]
      rw [this]
      exact ⟨le_refl peak, fun hne => absurd rfl hne⟩
  · intro h
    unfold peakStep
    rw [if_pos (Or.inr h)]

/-- Witness for `dvu_peak_hold`, tracing the level sequence [50, 200, 50]:
level 200 (50 cells) immediately overtakes the held 12-cell peak; one second
later (within the 1.5 s hold) the 50-level frame leaves the peak at 50
cells; two seconds after the peak update the hold has expired and the peak
drops to the 12 cells of level 50. -/
theorem dvu_peak_hold_w :
    cellsOf 50 = 12 ∧ cellsOf 200 = 50 ∧
    peakStep 12 0 (cellsOf 200) 1 = (cellsOf 200, 1) ∧
    12 ≤ (peakStep 12 0 (cellsOf 200) 1).1 ∧
    50 ≤ (peakStep 50 1 (cellsOf 50) 2).1 ∧
    peakStep 50 1 (cellsOf 50) 3 = (cellsOf 50, 3) :=
  ⟨by decide, by decide,
   (dvu_peak_hold 12 (cellsOf 200) 0 1).1 (by decide),
   ((dvu_peak_hold 12 (cellsOf 200) 0 1).2.1 (by norm_num [peakHold])).1,
   ((dvu_peak_hold 50 (cellsOf 50) 1 2).2.1 (by norm_num [peakHold])).1,
   (dvu_peak_hold 50 (cellsOf 50) 1 3).2.2 (by norm_num [peakHold])⟩

/-- The computation `duration_s = max(1, int(data.get("duration", 1)))` from
`DigitalVUScreen.draw_display`; `none` models a raised conversion error. -/
def dvuDurS? (st : PState) : Option ℤ :=
  (PyVal.toInt? (st.duration.getD (.int 1))).map (fun d => max 1 d)

/-- The raw numeric value of a `PyVal` used directly in arithmetic, with no
`int()` conversion: dividing a string or `None` by a float raises
`TypeError`, modelled as `none`. -/
def pyNum? : PyVal → Option ℤ
  | .int n => some n
  | _ => Option.none

/-- The computation `seek_s = max(0, seek_ms / 1000.0)` with
`seek_ms = data.get("seek", 0)`: the raw value is divided without an
`int()` conversion, so any string (numeric or not) or `None` seek raises
and yields `none`. -/
def dvuSeekS? (st : PState) : Option ℚ :=
  (pyNum? (st.seek.getD (.int 0))).map (fun s => max 0 ((s : ℚ) / 1000))

/-- The computation `progress = max(0.0, min(seek_s / duration_s, 1.0))`. -/
def dvuProgress? (st : PState) : Option ℚ :=
  match dvuDurS? st, dvuSeekS? st with
  | some d, some s => some (max 0 (min (s / (d : ℚ)) 1))
  | _, _ => Option.none

/-- C8: the progress fraction drawn by `DigitalVUScreen.draw_display` equals
`clamp(seek_s / duration_s, 0, 1)` for the effective duration
`duration_s = max(1, duration)`; the divisor is strictly positive even when
the duration is 0 or the key missing, the fraction is 0 when the
(non-negative) seek is 0, 1 when the seek reaches or exceeds the duration,
and strictly between 0 and 1 otherwise. -/
theorem dvu_progress_clamp (st : PState) (sm dm : ℤ)
    (hs : pyNum? (st.seek.getD (.int 0)) = some sm)
    (hd : PyVal.toInt? (st.duration.getD (.int 1)) = some dm) :
    dvuProgress? st =
      some (max 0 (min (max 0 ((sm : ℚ) / 1000) / ((max 1 dm : ℤ) : ℚ)) 1)) ∧
    (0 : ℚ) < ((max 1 dm : ℤ) : ℚ) ∧
    (sm = 0 → dvuProgress? st = some 0) ∧
    (((max 1 dm : ℤ) : ℚ) ≤ max 0 ((sm : ℚ) / 1000) → dvuProgress? st = some 1) ∧
    ((0 : ℚ) < max 0 ((sm : ℚ) / 1000) → max 0 ((sm : ℚ) / 1000) < ((max 1 dm : ℤ) : ℚ) →
      ∃ p, dvuProgress? st = some p ∧ 0 < p ∧ p < 1) := by
  have hD : dvuDurS? st = some (max 1 dm) := by
    unfold dvuDurS?
    rw [hd]
    rfl
  have hS : dvuSeekS? st = some (max 0 ((sm : ℚ) / 1000)) := by
    unfold dvuSeekS?
    rw [hs]
    rfl
  have hP : dvuProgress? st =
      some (max 0 (min (max 0 ((sm : ℚ) / 1000) / ((max 1 dm : ℤ) : ℚ)) 1)) := by
    unfold dvuProgress?
    rw [hD, hS]
  have hdpos : (0 : ℚ) < ((max 1 dm : ℤ) : ℚ) := by
    have : (1 : ℤ) ≤ max 1 dm := le_max_left 1 dm
    exact_mod_cast lt_of_lt_of_le zero_lt_one (by exact_mod_cast this)
  refine ⟨hP, hdpos, ?_, ?_, ?_⟩
  · intro h0
    rw [hP, h0]
    norm_num
  · intro hge
    rw [hP]
    have h1 : max 0 ((sm : ℚ) / 1000) / ((max 1 dm : ℤ) : ℚ) ≥ 1 :=
      (one_le_div hdpos).mpr hge
    rw [min_eq_right h1]
    norm_num
  · intro hpos hlt
    refine ⟨max 0 (min (max 0 ((sm : ℚ) / 1000) / ((max 1 dm : ℤ) : ℚ)) 1), hP, ?_, ?_⟩
    · have hq : (0 : ℚ) < max 0 ((sm : ℚ) / 1000) / ((max 1 dm : ℤ) : ℚ) :=
        div_pos hpos hdpos
      have : (0 : ℚ) < min (max 0 ((sm : ℚ) / 1000) / ((max 1 dm : ℤ) : ℚ)) 1 :=
        lt_min hq zero_lt_one
      exact lt_max_of_lt_right this
    · have hq : max 0 ((sm : ℚ) / 1000) / ((max 1 dm : ℤ) : ℚ) < 1 :=
        (div_lt_one hdpos).mpr hlt
      have hmin : min (max 0 ((sm : ℚ) / 1000) / ((max 1 dm : ℤ) : ℚ)) 1 < 1 :=
        min_lt_iff.mpr (Or.inl hq)
      have hnn : (0 : ℚ) ≤ min (max 0 ((sm : ℚ) / 1000) / ((max 1 dm : ℤ) : ℚ)) 1 :=
        le_min (le_of_lt (div_pos hpos hdpos)) zero_le_one
      rw [max_eq_right hnn]
      exact hmin

/-- Witness for `dvu_progress_clamp`: a track 30 s in (seek 30000 ms) of a
60 s duration shows a strictly intermediate progress fraction. -/
theorem dvu_progress_clamp_w :
    ∃ p, dvuProgress? { status := some playStr, seek := some (.int 30000),
                        duration := some (.int 60), volume := Option.none } = some p ∧
      0 < p ∧ p < 1 :=
  (dvu_progress_clamp
    { status := some playStr, seek := some (.int 30000),
      duration := some (.int 60), volume := Option.none }
    30000 60 rfl rfl).2.2.2.2 (by norm_num) (by norm_num)

/-- The dictionary `{"volume": 100}` that `adjust_volume` installs when
`latest_state` is `None`. -/
def default100 : PState :=
  { status := Option.none, seek := Option.none, duration := Option.none,
    volume := some (.int 100) }

/-- A volume command emitted to the player over the socket:
`("volume", "+")`, `("volume", "-")` or `("volume", n)`. -/
inductive VolCmd where
  | plus
  | minus
  | abs (n : ℤ)
deriving DecidableEq

/-- Embedding of `adjust_volume(volume_change)` of `VUScreen` (the `DigitalVUScreen` and
`OriginalScreen` bodies are identical in the embedded part): seed
`latest_state` with `{"volume": 100}` if it is `None`, read the cached
volume (default 100), clamp `current + delta` to [0, 100], then emit "+"
for positive delta, "-" for negative delta, and the clamped absolute value
for delta 0.  A `none` command models the `int()` conversion raising before
any emit. -/
def vuAdjustVolume (r : VURender) (delta : ℤ) : VURender × Option VolCmd :=
  match PyVal.toInt? ((r.latest.getD default100).volume.getD (.int 100)) with
  | Option.none => ({ r with latest := some (r.latest.getD default100) }, Option.none)
  | some curr =>
    ({ r with latest := some (r.latest.getD default100) },
     some (if 0 < delta then .plus
           else if delta < 0 then .minus
           else .abs (max 0 (min (curr + delta) 100))))

/-- Characterisation of `adjust_volume`: the state effect and the emitted
command, given that the cached volume converts to the integer `cv`. -/
theorem vuAdjustVolume_spec (r : VURender) (delta cv : ℤ)
    (hv : PyVal.toInt? ((r.latest.getD default100).volume.getD (.int 100)) = some cv) :
    (vuAdjustVolume r delta).1 = { r with latest := some (r.latest.getD default100) } ∧
    (vuAdjustVolume r delta).2 =
      some (if 0 < delta then .plus
            else if delta < 0 then .minus
            else .abs (max 0 (min (cv + delta) 100))) := by
  unfold vuAdjustVolume
  rw [hv]
  exact ⟨rfl, rfl⟩

/-- C6 (amended): `adjustVolume(delta)` reads the cached volume (default 100
when none is cached), computes `clamp(current + delta, 0, 100)`, emits a
relative "+" command for `delta > 0`, "-" for `delta < 0`, and the absolute
clamped value for `delta = 0`; it leaves `current_state`,
`last_update_time` and the wake event untouched, and leaves `latest_state`
unchanged whenever one is cached — but when `latest_state` is `None` the
call first seeds it with `{"volume": 100}`, so in that one case
`latest_state` is mutated. -/
theorem adjust_volume_behavior (r : VURender) (delta cv : ℤ)
    (hv : PyVal.toInt? ((r.latest.getD default100).volume.getD (.int 100)) = some cv) :
    (vuAdjustVolume r delta).1.current = r.current ∧
    (vuAdjustVolume r delta).1.lastUpdate = r.lastUpdate ∧
    (vuAdjustVolume r delta).1.eventSet = r.eventSet ∧
    (∀ st, r.latest = some st → (vuAdjustVolume r delta).1.latest = some st) ∧
    (r.latest = Option.none → (vuAdjustVolume r delta).1.latest = some default100) ∧
    (0 < delta → (vuAdjustVolume r delta).2 = some .plus) ∧
    (delta < 0 → (vuAdjustVolume r delta).2 = some .minus) ∧
    (delta = 0 →
      (vuAdjustVolume r delta).2 = some (.abs (max 0 (min (cv + delta) 100)))) := by
  obtain ⟨h1, h2⟩ := vuAdjustVolume_spec r delta cv hv
  rw [h1, h2]
  refine ⟨rfl, rfl, rfl, ?_, ?_, ?_, ?_, ?_⟩
  · intro st hst
    simp [hst]
  · intro hst
    simp [hst]
  · intro h
    rw [if_pos h]
  · intro h
    rw [if_neg (show ¬ (0 < delta) from by omega), if_pos h]
  · intro h
    rw [if_neg (show ¬ (0 < delta) from by omega),
        if_neg (show ¬ (delta < 0) from by omega)]

/-- Witness for `adjust_volume_behavior`: with no cached state,
`adjustVolume(+5)` emits the relative "+" command, leaves `current_state`
untouched, and seeds `latest_state` with `{"volume": 100}`. -/
theorem adjust_volume_behavior_w :
    (vuAdjustVolume { latest := Option.none, current := Option.none,
                      lastUpdate := 0, eventSet := false } 5).2 = some .plus ∧
    (vuAdjustVolume { latest := Option.none, current := Option.none,
                      lastUpdate := 0, eventSet := false } 5).1.current = Option.none ∧
    (vuAdjustVolume { latest := Option.none, current := Option.none,
                      lastUpdate := 0, eventSet := false } 5).1.latest = some default100 :=
  ⟨(adjust_volume_behavior
      { latest := Option.none, current := Option.none, lastUpdate := 0, eventSet := false }
      5 100 rfl).2.2.2.2.2.1 (by norm_num),
   (adjust_volume_behavior
      { latest := Option.none, current := Option.none, lastUpdate := 0, eventSet := false }
      5 100 rfl).1,
   (adjust_volume_behavior
      { latest := Option.none, current := Option.none, lastUpdate := 0, eventSet := false }
      5 100 rfl).2.2.2.2.1 rfl⟩

/-- C6 counterexample: `adjustVolume(+5)` with `latest_state = None` does
mutate local state — afterwards `latest_state` is `{"volume": 100}`, not
`None`, refuting "neither latestState nor currentState ... is changed by
the call". -/
theorem c6_latest_state_mutated_counterexample :
    (vuAdjustVolume { latest := Option.none, current := Option.none,
                      lastUpdate := 0, eventSet := false } 5).1.latest ≠ Option.none := by
  decide

/-- C10: for nonzero delta the emitted command depends only on the sign of
delta — any two calls with positive deltas (whatever the cached volumes or
magnitudes) emit the same "+" command, any two with negative deltas the
same "-" command — while the clamped value reaches the emitted command only
when delta is 0. -/
theorem adjust_volume_sign_only (r1 r2 : VURender) (d1 d2 cv1 cv2 : ℤ)
    (hv1 : PyVal.toInt? ((r1.latest.getD default100).volume.getD (.int 100)) = some cv1)
    (hv2 : PyVal.toInt? ((r2.latest.getD default100).volume.getD (.int 100)) = some cv2) :
    (0 < d1 → 0 < d2 →
      (vuAdjustVolume r1 d1).2 = (vuAdjustVolume r2 d2).2 ∧
      (vuAdjustVolume r1 d1).2 = some .plus) ∧
    (d1 < 0 → d2 < 0 →
      (vuAdjustVolume r1 d1).2 = (vuAdjustVolume r2 d2).2 ∧
      (vuAdjustVolume r1 d1).2 = some .minus) ∧
    (d1 = 0 →
      (vuAdjustVolume r1 d1).2 = some (.abs (max 0 (min (cv1 + d1) 100)))) := by
  have h1 := (vuAdjustVolume_spec r1 d1 cv1 hv1).2
  have h2 := (vuAdjustVolume_spec r2 d2 cv2 hv2).2
  refine ⟨?_, ?_, ?_⟩
  · intro hp1 hp2
    rw [h1, h2, if_pos hp1, if_pos hp2]
    exact ⟨rfl, rfl⟩
  · intro hn1 hn2
    rw [h1, h2, if_neg (show ¬ (0 < d1) from by omega),
        if_neg (show ¬ (0 < d2) from by omega), if_pos hn1, if_pos hn2]
    exact ⟨rfl, rfl⟩
  · intro h0
    rw [h1, if_neg (show ¬ (0 < d1) from by omega),
        if_neg (show ¬ (d1 < 0) from by omega)]

/-- Witness for `adjust_volume_sign_only`: cached volumes 30 and 80 with
deltas +5 and +17 emit the identical "+" command. -/
theorem adjust_volume_sign_only_w :
    (vuAdjustVolume { latest := some { status := Option.none, seek := Option.none,
                                       duration := Option.none, volume := some (.int 30) },
                      current := Option.none, lastUpdate := 0, eventSet := false } 5).2 =
      (vuAdjustVolume { latest := some { status := Option.none, seek := Option.none,
                                         duration := Option.none, volume := some (.int 80) },
                        current := Option.none, lastUpdate := 0, eventSet := false } 17).2 :=
  ((adjust_volume_sign_only
      { latest := some { status := Option.none, seek := Option.none,
                         duration := Option.none, volume := some (.int 30) },
        current := Option.none, lastUpdate := 0, eventSet := false }
      { latest := some { status := Option.none, seek := Option.none,
                         duration := Option.none, volume := some (.int 80) },
        current := Option.none, lastUpdate := 0, eventSet := false }
      5 17 30 80 rfl rfl).1 (by norm_num) (by norm_num)).1

/-- Lifecycle flags a screen's `stop_mode` reads and writes: `is_active`,
`running_spectrum`, the stop and update events, and whether each owned
thread is currently alive. -/
structure VULife where
  isActive : Bool
  runningSpectrum : Bool
  stopEvent : Bool
  updateEvent : Bool
  spectrumAlive : Bool
  updateAlive : Bool
deriving DecidableEq

/-- Externally visible shutdown actions performed by `stop_mode`. -/
inductive StopFx where
  | joinSpectrum
  | joinUpdate
  | clearDisplay
deriving DecidableEq

/-- Embedding of `VUScreen.stop_mode`: early return when not active; otherwise clear
`is_active`, stop the spectrum reader (flag plus bounded join when the
thread is alive), signal the stop and update events, join the update thread
when alive, and clear the display.  The effect list records the joins and
the clear in program order. -/
def vuStopMode (s : VULife) : VULife × List StopFx :=
  if s.isActive = false then (s, [])
  else
    ({ s with isActive := false, runningSpectrum := false,
              stopEvent := true, updateEvent := true },
     (if s.spectrumAlive then [StopFx.joinSpectrum] else []) ++
     (if s.updateAlive then [StopFx.joinUpdate] else []) ++ [StopFx.clearDisplay])

/-- Embedding of `OriginalScreen.stop_mode`: as `VUScreen.stop_mode` but with no spectrum
reader of its own. -/
def origStopMode (s : VULife) : VULife × List StopFx :=
  if s.isActive = false then (s, [])
  else
    ({ s with isActive := false, stopEvent := true, updateEvent := true },
     (if s.updateAlive then [StopFx.joinUpdate] else []) ++ [StopFx.clearDisplay])

/-- C7: `stop_mode` is idempotent on both screens: on an already-inactive
screen it is a no-op (state unchanged, no join, no clear); after any first
call the screen is inactive, so an immediately repeated call changes
nothing and performs no effect — the shutdown work (stop flags, joins,
display clear) happens exactly once, on the first call when the screen was
active. -/
theorem stop_mode_idempotent (s t : VULife) :
    (s.isActive = false → vuStopMode s = (s, [])) ∧
    (t.isActive = false → origStopMode t = (t, [])) ∧
    vuStopMode (vuStopMode s).1 = ((vuStopMode s).1, []) ∧
    origStopMode (origStopMode t).1 = ((origStopMode t).1, []) ∧
    (vuStopMode s).2 ++ (vuStopMode (vuStopMode s).1).2 = (vuStopMode s).2 ∧
    (s.isActive = true →
      (vuStopMode s).1.isActive = false ∧
      (vuStopMode s).1.runningSpectrum = false ∧
      (vuStopMode s).1.stopEvent = true ∧
      (vuStopMode s).1.updateEvent = true ∧
      StopFx.clearDisplay ∈ (vuStopMode s).2) := by
  have hvu : ∀ u : VULife, u.isActive = false → vuStopMode u = (u, []) := by
    intro u hu
    unfold vuStopMode
    rw [if_pos hu]
  have horig : ∀ u : VULife, u.isActive = false → origStopMode u = (u, []) := by
    intro u hu
    unfold origStopMode
    rw [if_pos hu]
  have hvu1 : (vuStopMode s).1.isActive = false := by
    unfold vuStopMode
    by_cases h : s.isActive = false
    · rw [if_pos h]
      exact h
    · rw [if_neg h]
  have horig1 : (origStopMode t).1.isActive = false := by
    unfold origStopMode
    by_cases h : t.isActive = false
    · rw [if_pos h]
      exact h
    · rw [if_neg h]
  refine ⟨hvu s, horig t, hvu _ hvu1, horig _ horig1, ?_, ?_⟩
  · rw [hvu _ hvu1]
    simp
  · intro hact
    have : vuStopMode s =
        ({ s with isActive := false, runningSpectrum := false,
                  stopEvent := true, updateEvent := true },
         (if s.spectrumAlive then [StopFx.joinSpectrum] else []) ++
         (if s.updateAlive then [StopFx.joinUpdate] else []) ++ [StopFx.clearDisplay]) := by
      unfold vuStopMode
      rw [if_neg (by rw [hact]; exact fun h => Bool.noConfusion h)]
    rw [this]
    refine ⟨rfl, rfl, rfl, rfl, ?_⟩
    simp

/-- Witness for `stop_mode_idempotent`: a fully active screen with both
threads alive; the first call stops it, the repeated call is a no-op. -/
theorem stop_mode_idempotent_w :
    vuStopMode { isActive := false, runningSpectrum := false, stopEvent := true,
                 updateEvent := true, spectrumAlive := true, updateAlive := true } =
      ({ isActive := false, runningSpectrum := false, stopEvent := true,
         updateEvent := true, spectrumAlive := true, updateAlive := true }, []) ∧
    StopFx.clearDisplay ∈
      (vuStopMode { isActive := true, runningSpectrum := true, stopEvent := false,
                    updateEvent := false, spectrumAlive := true, updateAlive := true }).2 :=
  ⟨(stop_mode_idempotent
      { isActive := false, runningSpectrum := false, stopEvent := true,
        updateEvent := true, spectrumAlive := true, updateAlive := true }
      { isActive := false, runningSpectrum := false, stopEvent := true,
        updateEvent := true, spectrumAlive := true, updateAlive := true }).1 rfl,
   ((stop_mode_idempotent
      { isActive := true, runningSpectrum := true, stopEvent := false,
        updateEvent := false, spectrumAlive := true, updateAlive := true }
      { isActive := true, runningSpectrum := true, stopEvent := false,
        updateEvent := false, spectrumAlive := true, updateAlive := true }).2.2.2.2.2
    rfl).2.2.2.2⟩

/-- Channel levels of `VUScreen.draw_display`:
`sum(bars[:18]) // 18 if len(bars) == 36 else 0` per channel. -/
def vuLevels (bars : List ℕ) : ℕ × ℕ :=
  if bars.length = 36 then ((bars.take 18).sum / 18, (bars.drop 18).sum / 18)
  else (0, 0)

/-- Channel levels of `DigitalVUScreen.draw_display`: same averages, guarded
by `if bars and len(bars) == 36`. -/
def dvuLevels (bars : List ℕ) : ℕ × ℕ :=
  if bars ≠ [] ∧ bars.length = 36 then ((bars.take 18).sum / 18, (bars.drop 18).sum / 18)
  else (0, 0)

/-- Needle angle `min_angle + (level / 255) * (max_angle - min_angle)` with
`min_angle = -70`, `max_angle = 70`. -/
def levelToAngle (level : ℕ) : ℚ := -70 + ((level : ℚ) / 255) * (70 - (-70))

/-- C9: both screens compute the same levels; any bar vector whose length is
not exactly 36 yields level 0 on both channels — needles at the minimum
angle and zero ladder cells — while a 36-element vector yields the integer
averages of its first and last 18 elements. -/
theorem spectrum_levels (bars : List ℕ) :
    vuLevels bars = dvuLevels bars ∧
    (bars.length ≠ 36 →
      vuLevels bars = (0, 0) ∧ levelToAngle 0 = -70 ∧ cellsOf 0 = 0) ∧
    (bars.length = 36 →
      vuLevels bars = ((bars.take 18).sum / 18, (bars.drop 18).sum / 18)) := by
  refine ⟨?_, ?_, ?_⟩
  · by_cases h : bars.length = 36
    · have hne : bars ≠ [] := by
        intro hnil
        rw [hnil] at h
        simp at h
      unfold vuLevels dvuLevels
      rw [if_pos h, if_pos ⟨hne, h⟩]
    · unfold vuLevels dvuLevels
      rw [if_neg h, if_neg (by rintro ⟨-, hbad⟩; exact h hbad)]
  · intro h
    refine ⟨?_, ?_, rfl⟩
    · unfold vuLevels
      rw [if_neg h]
    · unfold levelToAngle
      norm_num
  · intro h
    unfold vuLevels
    rw [if_pos h]

/-- Witness for `spectrum_levels`: the 3-element vector `[10, 20, 30]` is
rejected (levels 0), and a full 36-element vector of 255s averages to
level 255 per channel. -/
theorem spectrum_levels_w :
    vuLevels [10, 20, 30] = (0, 0) ∧
    vuLevels (List.replicate 36 255) =
      (((List.replicate 36 255).take 18).sum / 18,
       ((List.replicate 36 255).drop 18).sum / 18) ∧
    (((List.replicate 36 255).take 18).sum / 18 = 255) :=
  ⟨((spectrum_levels [10, 20, 30]).2.1 (by decide)).1,
   (spectrum_levels (List.replicate 36 255)).2.2 (by decide),
   by decide⟩
